import Mathlib

/-!
Verification of the entity-resolution and request-construction layer of the
defillama client library (src/defillama/client.py, src/defillama/utils.py).
The Python code is shallowly embedded: dynamic str-or-int values become
explicit sum types, dictionaries become insertion-ordered association lists,
raised ValueErrors become Except.error carrying the formatted message, and an
issued HTTP request becomes a returned request descriptor.
-/

/-- Join a list of strings with a separator, as Python str.join does. -/
def joinWith (sep : String) : List String → String
  | [] => ""
  | [x] => x
  | x :: y :: xs => x ++ sep ++ joinWith sep (y :: xs)

/-- Lowercase one character, embedding Python str.lower on the ASCII
fragment used by the client: the 26 uppercase letters map to their lowercase
forms, everything else is unchanged. -/
def pyCharLower (c : Char) : Char :=
  match c with
  | 'A' => 'a' | 'B' => 'b' | 'C' => 'c' | 'D' => 'd' | 'E' => 'e'
  | 'F' => 'f' | 'G' => 'g' | 'H' => 'h' | 'I' => 'i' | 'J' => 'j'
  | 'K' => 'k' | 'L' => 'l' | 'M' => 'm' | 'N' => 'n' | 'O' => 'o'
  | 'P' => 'p' | 'Q' => 'q' | 'R' => 'r' | 'S' => 's' | 'T' => 't'
  | 'U' => 'u' | 'V' => 'v' | 'W' => 'w' | 'X' => 'x' | 'Y' => 'y'
  | 'Z' => 'z'
  | other => other

/-- Lowercase a string character by character, embedding Python str.lower on
the ASCII fragment used by the client. -/
def strLower (s : String) : String :=
  String.mk (s.data.map pyCharLower)

/-- Embedding of Python str.isnumeric on the ASCII fragment: nonempty and all
decimal digits. -/
def pyIsNumeric (s : String) : Bool :=
  !s.data.isEmpty && s.data.all Char.isDigit

/-- Digits of a string to a natural number, most significant first; embedding
of Python int(s) applied to an all-digit string. -/
def digitsToNat (l : List Char) : Nat :=
  l.foldl (fun acc c => acc * 10 + (c.toNat - 48)) 0

/-- Embedding of Python int(s) for the numeric strings the resolvers guard
with isnumeric before parsing. -/
def strToInt (s : String) : Int :=
  Int.ofNat (digitsToNat s.data)

/-- The single-quote character, used by Python repr of strings. -/
def squo : Char := Char.ofNat 39

/-- Python repr of a plain string value: wrapped in single quotes. -/
def reprPyStr (s : String) : String :=
  String.singleton squo ++ s ++ String.singleton squo

/-- Python str() of an f-string-interpolated dict mapping int ids to names,
in insertion order, e.g. a two-entry dict renders as
\x7b1: 'Bridge 1', 2: 'Bridge 2'\x7d. -/
def reprIntStrDict (l : List (Int × String)) : String :=
  "\x7b" ++ joinWith (", ") (l.map (fun kv => toString kv.1 ++ ": " ++ reprPyStr kv.2)) ++ "\x7d"

/-- Python str() of an f-string-interpolated list of strings, in order. -/
def reprStrList (l : List String) : String :=
  "[" ++ joinWith (", ") (l.map reprPyStr) ++ "]"

/-- Substring containment: s contains sub somewhere inside. -/
def ContainsStr (s sub : String) : Prop :=
  ∃ p q, s = p ++ sub ++ q

/-- Dynamic Python value as passed for positional path segments and query
parameters: an int, a str, a bool, or None. -/
inductive PyVal where
  | int (n : Int)
  | str (s : String)
  | bool (b : Bool)
  | none
deriving DecidableEq, Repr

/-- Python truthiness of a PyVal, as tested by `if arg` / `for ... if arg`. -/
def pyTruthy : PyVal → Bool
  | PyVal.int n => n != 0
  | PyVal.str s => s != ""
  | PyVal.bool b => b
  | PyVal.none => false

/-- Python str() conversion of a PyVal, as used when joining path segments. -/
def pyStr : PyVal → String
  | PyVal.int n => toString n
  | PyVal.str s => s
  | PyVal.bool b => if b then "True" else "False"
  | PyVal.none => "None"

/-- The self._urls table built in DefiLlamaClient.__init__: the seven API
sections (keyed here by their wire-string enum values, since ApiSectionsEnum
is a str enum) mapped to their base hosts. -/
def defillama_urls : List (String × String) :=
  [ ("tvl", "https://api.llama.fi"),
    ("coins", "https://coins.llama.fi"),
    ("stablecoins", "https://stablecoins.llama.fi"),
    ("yields", "https://yields.llama.fi"),
    ("bridges", "https://bridges.llama.fi"),
    ("volumes", "https://api.llama.fi"),
    ("fees", "https://api.llama.fi") ]

/-- The wire values of ApiSectionsEnum, i.e. the key set of self._urls. -/
def apiSections : List String :=
  defillama_urls.map Prod.fst

/-- Embedding of DefiLlamaClient._resolve_api_url: look the section up in
self._urls, raising ValueError for a section that is not a key. -/
def resolve_api_url (sec : String) : Except String String :=
  match defillama_urls.find? (fun kv => kv.1 == sec) with
  | some kv => Except.ok kv.2
  | Option.none => Except.error ("Invalid section: " ++ sec)

/-- Embedding of DefiLlamaClient._build_endpoint_url: base slash endpoint,
and when the argument tuple is nonempty a slash followed by the truthy
arguments converted to str and joined by slashes. -/
def build_endpoint_url (sec endpoint : String) (args : List PyVal) :
    Except String String := do
  let base ← resolve_api_url sec
  let url := base ++ "/" ++ endpoint
  if args.isEmpty then
    pure url
  else
    pure (url ++ "/" ++ joinWith "/" ((args.filter pyTruthy).map pyStr))

/-- User-supplied identifier that may be a string or an int, the
Union[str, int] accepted by the bridge and stablecoin resolvers. -/
inductive PyId where
  | s (v : String)
  | i (n : Int)
deriving DecidableEq, Repr

/-- Python truthiness of a Union[str, int] optional identifier, as tested by
the `if bridge` guard in get_bridge_volume. -/
def pyTruthyId : PyId → Bool
  | PyId.s v => v != ""
  | PyId.i n => n != 0

/-- Python str() of a PyId, as interpolated into error messages. -/
def pyIdStr : PyId → String
  | PyId.s v => v
  | PyId.i n => toString n

/-- Embedding of utils.validate_searched_entity when the entities argument is
a list of strings: raise ValueError unless the entity is a member. -/
def validate_searched_entity (entity : String) (entities : List String)
    (entity_type : String) : Except String Unit :=
  if entities.contains entity then Except.ok ()
  else Except.error ("Invalid " ++ entity_type ++ ": " ++ entity ++
    ". Available: " ++ reprStrList entities)

/-- Embedding of utils.validate_searched_entity when the entities argument is
a dict keyed by int ids: the `in` test is over the key set. -/
def validate_searched_entity_id (entity : Int) (entities : List (Int × String))
    (entity_type : String) : Except String Unit :=
  if (entities.map Prod.fst).contains entity then Except.ok ()
  else Except.error ("Invalid " ++ entity_type ++ ": " ++ toString entity ++
    ". Available: " ++ reprIntStrDict entities)

/-- Embedding of utils.get_bridge_id: a non-numeric string searches the dict
values for an exact or lowercase match and returns the first matching key;
an int or numeric string is parsed with int(); either way the resulting id is
then checked against the key set by validate_searched_entity. -/
def get_bridge_id (bridge : PyId) (bridges : List (Int × String)) :
    Except String Int :=
  match bridge with
  | PyId.s v =>
    if !pyIsNumeric v then
      match bridges.find? (fun kv => kv.2 == v || strLower kv.2 == strLower v) with
      | some kv => do
        validate_searched_entity_id kv.1 bridges "bridge"
        pure kv.1
      | Option.none =>
        Except.error ("Invalid bridge: " ++ v ++ ". Available bridges: " ++
          reprIntStrDict bridges)
    else do
      let bridge_id := strToInt v
      validate_searched_entity_id bridge_id bridges "bridge"
      pure bridge_id
  | PyId.i n => do
    validate_searched_entity_id n bridges "bridge"
    pure n

/-- Embedding of utils.get_stablecoin_id: same shape as get_bridge_id with
the stablecoin wording. -/
def get_stablecoin_id (stablecoin : PyId) (stablecoins : List (Int × String)) :
    Except String Int :=
  match stablecoin with
  | PyId.s v =>
    if !pyIsNumeric v then
      match stablecoins.find? (fun kv => kv.2 == v || strLower kv.2 == strLower v) with
      | some kv => do
        validate_searched_entity_id kv.1 stablecoins "stablecoin"
        pure kv.1
      | Option.none =>
        Except.error ("Invalid stablecoin: " ++ v ++ ". Available stablecoins: " ++
          reprIntStrDict stablecoins)
    else do
      let stablecoin_id := strToInt v
      validate_searched_entity_id stablecoin_id stablecoins "stablecoin"
      pure stablecoin_id
  | PyId.i n => do
    validate_searched_entity_id n stablecoins "stablecoin"
    pure n

/-- Prefix test on character lists. -/
def isPrefixOfCL : List Char → List Char → Bool
  | [], _ => true
  | _ :: _, [] => false
  | p :: ps, c :: cs => p == c && isPrefixOfCL ps cs

/-- Fuelled worker for Python str.replace: replace non-overlapping
occurrences of pat left to right. -/
def replaceAux (pat repl : List Char) : Nat → List Char → List Char
  | 0, l => l
  | Nat.succ _, [] => []
  | Nat.succ n, c :: cs =>
    if isPrefixOfCL pat (c :: cs) then
      repl ++ replaceAux pat repl n (List.drop pat.length (c :: cs))
    else
      c :: replaceAux pat repl n cs

/-- Embedding of Python str.replace for the nonempty patterns used by
uuid.UUID normalization. -/
def pyReplace (s pat repl : String) : String :=
  String.mk (replaceAux pat.data repl.data s.data.length s.data)

/-- Test for the curly-brace characters stripped by uuid.UUID. -/
def braceChar (c : Char) : Bool :=
  c == Char.ofNat 123 || c == Char.ofNat 125

/-- Embedding of Python str.strip applied with the two brace characters:
drop them from both ends. -/
def stripBraces (s : String) : String :=
  String.mk (((s.data.dropWhile braceChar).reverse.dropWhile braceChar).reverse)

/-- Hexadecimal digit as accepted by Python int(h, 16). -/
def isHexDigitPy (c : Char) : Bool :=
  c.isDigit || (97 ≤ c.toNat && c.toNat ≤ 102) || (65 ≤ c.toNat && c.toNat ≤ 70)

/-- Modelled from the spec and the Python standard library uuid module (not
under src/): whether uuid.UUID(pool) succeeds. The constructor removes the
case-sensitive markers urn: and uuid:, strips surrounding braces, removes
hyphens, and then requires exactly 32 hexadecimal digits. -/
def uuidParses (s : String) : Bool :=
  let h := pyReplace (pyReplace s "urn:" "") "uuid:" ""
  let h := stripBraces h
  let h := pyReplace h "-" ""
  h.data.length == 32 && h.data.all isHexDigitPy

/-- Outbound request descriptor: section, endpoint, positional path segments
and named query parameters, as handed to DefiLlamaClient._get. -/
structure Request where
  sec : String
  endpoint : String
  args : List PyVal
  params : List (String × PyVal)
deriving DecidableEq, Repr

/-- The ValueError message raised by get_pool_historical_apy_and_tvl for an
unresolvable pool. -/
def pool_error_msg (pool : String) : String :=
  "Invalid pool: " ++ pool ++
    ". To see available pools, use DefiLlamaClient().list_pools()"

/-- Embedding of DefiLlamaClient.get_pool_historical_apy_and_tvl: if
uuid.UUID(pool) succeeds the input is used as the pool id directly with no
listing lookup; otherwise the first listing entry whose symbol matches
exactly or lowercased supplies the id, and failing that a ValueError is
raised. The returned Request is the GET the method then issues. -/
def get_pool_historical_apy_and_tvl (pool : String)
    (pools : List (String × String)) : Except String Request :=
  if uuidParses pool then
    Except.ok ⟨"yields", "chart", [PyVal.str pool], []⟩
  else
    match pools.find? (fun kv => kv.2 == pool || strLower kv.2 == strLower pool) with
    | some kv => Except.ok ⟨"yields", "chart", [PyVal.str kv.1], []⟩
    | Option.none => Except.error (pool_error_msg pool)

/-- Modelled from the spec: the query-string assembly performed by the shared
HTTP session (the requests transport, outside src/) on the params mapping
received from DefiLlamaClient._get — a parameter whose value is None is
omitted entirely, every other value is serialized literally. -/
def encode_params (ps : List (String × PyVal)) : List (String × String) :=
  (ps.filter (fun p => p.2 != PyVal.none)).map (fun p => (p.1, pyStr p.2))

/-- Embedding of DefiLlamaClient._get up to the wire: build the endpoint URL
and pair it with the assembled query string. -/
def get_request (sec endpoint : String) (args : List PyVal)
    (params : List (String × PyVal)) :
    Except String (String × List (String × String)) := do
  let url ← build_endpoint_url sec endpoint args
  pure (url, encode_params params)

/-- Per-listing cache slot of a client instance together with the number of
underlying network fetches it has issued. -/
structure CacheState (α : Type) where
  cache : Option α
  fetches : Nat
deriving Repr

/-- Embedding of functools.cached_property access: a populated slot is
returned as is; an empty slot runs the defining computation once, records
the fetch, and stores the value. -/
def cachedAccess {α : Type} (compute : Unit → α) (s : CacheState α) :
    α × CacheState α :=
  match s.cache with
  | some v => (v, s)
  | Option.none =>
    let v := compute ()
    (v, ⟨some v, s.fetches + 1⟩)

/-- Deduplication keeping first occurrences, embedding the set comprehension
in DefiLlamaClient._chains. -/
def dedupFirst (l : List String) : List String :=
  l.foldl (fun acc x => if acc.contains x then acc else acc ++ [x]) []

/-- Embedding of the defining computation of DefiLlamaClient._chains: the
name field of each entry of GET v2/chains, lowercased and collected into a
set. -/
def chains_listing (names : List String) : List String :=
  dedupFirst (names.map strLower)

/-- Option Int to the PyVal query-parameter value it is passed as. -/
def optIntVal : Option Int → PyVal
  | some n => PyVal.int n
  | Option.none => PyVal.none

/-- Embedding of DefiLlamaClient.get_bridge_volume: validate the raw chain
against the dex-chains listing, resolve the optional bridge with
get_bridge_id only when it is truthy, and issue GET bridgevolume/chain with
the id query parameter. -/
def get_bridge_volume (chain : String) (bridge : Option PyId)
    (dex_chains : List String) (bridges : List (Int × String)) :
    Except String Request := do
  validate_searched_entity chain dex_chains "chain"
  let bridge_id : Option Int ←
    match bridge with
    | some b =>
      if pyTruthyId b then do
        let i ← get_bridge_id b bridges
        pure (some i)
      else
        pure Option.none
    | Option.none => pure Option.none
  pure ⟨"bridges", "bridgevolume", [PyVal.str chain], [("id", optIntVal bridge_id)]⟩

/-- Embedding of DefiLlamaClient.get_historical_tvl_for_chain: the chain is
lowercased before the membership check against the chains listing. -/
def get_historical_tvl_for_chain (chain : String) (chains : List String) :
    Except String Request := do
  validate_searched_entity (strLower chain) chains "chain"
  pure ⟨"tvl", "v2", [PyVal.str "historicalChainTvl", PyVal.str chain], []⟩

/-- Embedding of DefiLlamaClient.get_dexes_volume_overview_for_chain: the
chain is passed to the membership check unmodified. -/
def get_dexes_volume_overview_for_chain (chain : String)
    (dex_chains : List String) (exclude_total_data_chart : Bool)
    (exclude_total_data_chart_breakdown : Bool) (dataType : String) :
    Except String Request := do
  validate_searched_entity chain dex_chains "chain"
  pure ⟨"volumes", "overview", [PyVal.str "dexs", PyVal.str chain],
    [("excludeTotalDataChart", PyVal.bool exclude_total_data_chart),
     ("excludeTotalDataChartBreakdown", PyVal.bool exclude_total_data_chart_breakdown),
     ("dataType", PyVal.str dataType)]⟩

/-- Structured coin input of utils._prepare_token. The Coin dataclass lives
in defillama/dtypes.py which is not under src/; modelled from the spec as a
pair of chain identifier and address, alongside the dict and plain-string
shapes the source branches on. -/
inductive CoinLike where
  | coin (chain address : String)
  | dict (chain address : String)
  | str (s : String)
deriving DecidableEq, Repr

/-- Embedding of utils._prepare_token: a Coin or dict becomes
chain:address, a string passes through. -/
def prepare_token : CoinLike → String
  | CoinLike.coin c a => c ++ ":" ++ a
  | CoinLike.dict c a => c ++ ":" ++ a
  | CoinLike.str s => s

/-- Input shapes accepted by utils.prepare_coins_for_request, in the order
the source tests them: a string, a list, a single Coin, a single dict. -/
inductive CoinsInput where
  | str (s : String)
  | list (ts : List CoinLike)
  | coin (chain address : String)
  | dict (chain address : String)
deriving DecidableEq, Repr

/-- Embedding of utils.prepare_coins_for_request: a string is returned
unchanged, a list is mapped through _prepare_token and comma-joined, and a
single Coin or dict goes through _prepare_token. -/
def prepare_coins_for_request : CoinsInput → String
  | CoinsInput.str s => s
  | CoinsInput.list ts => joinWith "," (ts.map prepare_token)
  | CoinsInput.coin c a => prepare_token (CoinLike.coin c a)
  | CoinsInput.dict c a => prepare_token (CoinLike.dict c a)

/-- Lowercasing never turns a character into a digit or a digit into
anything else. -/
theorem pyCharLower_isDigit (c : Char) : (pyCharLower c).isDigit = c.isDigit := by
  unfold pyCharLower
  split <;> simp_all

/-- A character whose lowercase form is a digit is already that digit. -/
theorem pyCharLower_eq_of_isDigit (c : Char) (h : (pyCharLower c).isDigit = true) :
    pyCharLower c = c := by
  unfold pyCharLower at h ⊢
  split <;> simp_all

/-- Mapping the lowercase table over an all-digit character list is the
identity. -/
theorem map_pyCharLower_eq_self (l : List Char) (h : ∀ c ∈ l, c.isDigit = true) :
    l.map pyCharLower = l := by
  induction l with
  | nil => rfl
  | cons a t ih =>
    have ha := h a (by simp)
    have hfix : pyCharLower a = a := by
      apply pyCharLower_eq_of_isDigit
      rw [pyCharLower_isDigit]
      exact ha
    simp [hfix, ih (fun c hc => h c (by simp [hc]))]

/-- All-digit tests agree between a character list and its lowercased form. -/
theorem all_isDigit_map_pyCharLower (l : List Char) :
    (l.map pyCharLower).all Char.isDigit = l.all Char.isDigit := by
  induction l with
  | nil => rfl
  | cons a t ih => simp [List.all_cons, ih, pyCharLower_isDigit]

/-- Two strings with the same lowercase form agree on str.isnumeric. -/
theorem pyIsNumeric_of_strLower_eq (s t : String) (h : strLower s = strLower t) :
    pyIsNumeric s = pyIsNumeric t := by
  have hd : s.data.map pyCharLower = t.data.map pyCharLower := by
    simpa [strLower, String.ext_iff] using h
  unfold pyIsNumeric
  have hlen : s.data.length = t.data.length := by
    have := congrArg List.length hd
    simpa using this
  have hall : s.data.all Char.isDigit = t.data.all Char.isDigit := by
    rw [← all_isDigit_map_pyCharLower s.data, ← all_isDigit_map_pyCharLower t.data, hd]
  rw [hall]
  cases hs : s.data with
  | nil =>
    cases ht : t.data with
    | nil => rfl
    | cons b m => rw [hs, ht] at hlen; simp at hlen
  | cons a l =>
    cases ht : t.data with
    | nil => rw [hs, ht] at hlen; simp at hlen
    | cons b m => rfl

/-- A numeric string is fixed by lowercasing. -/
theorem strLower_eq_self_of_numeric (s : String) (h : pyIsNumeric s = true) :
    strLower s = s := by
  unfold pyIsNumeric at h
  have hall : ∀ c ∈ s.data, c.isDigit = true := by
    intro c hc
    have := (Bool.and_eq_true _ _).mp h
    exact List.all_eq_true.mp this.2 c hc
  unfold strLower
  apply String.ext
  simp [map_pyCharLower_eq_self s.data hall]

/-- Two numeric strings with the same lowercase form are equal. -/
theorem eq_of_strLower_eq_numeric (s t : String) (h : strLower s = strLower t)
    (hs : pyIsNumeric s = true) : s = t := by
  have ht : pyIsNumeric t = true := (pyIsNumeric_of_strLower_eq s t h) ▸ hs
  have h1 := strLower_eq_self_of_numeric s hs
  have h2 := strLower_eq_self_of_numeric t ht
  rw [h1, h2] at h
  exact h

/-- The match predicate of the name-search resolvers collapses to comparing
lowercase forms, since exact equality implies lowercase equality. -/
theorem match_pred_lower (v x : String) :
    (v == x || strLower v == strLower x) = (strLower v == strLower x) := by
  by_cases h : v = x
  · subst h; simp
  · simp [h]

/-- List.find? only depends on the predicate pointwise. -/
theorem find_pred_congr {α : Type} (p q : α → Bool) (h : ∀ a, p a = q a) :
    ∀ l : List α, l.find? p = l.find? q := by
  intro l
  induction l with
  | nil => rfl
  | cons a t ih =>
    rw [List.find?_cons, List.find?_cons, h a]
    cases q a <;> simp [ih]

/-- Helper: looking up a section absent from the enum key set fails with the
Invalid section message. -/
theorem resolve_api_url_not_mem (sec : String) (h : sec ∉ apiSections) :
    resolve_api_url sec = Except.error ("Invalid section: " ++ sec) := by
  unfold resolve_api_url
  cases hf : defillama_urls.find? (fun kv => kv.1 == sec) with
  | none => rfl
  | some kv =>
    exfalso
    apply h
    have hmem := List.mem_of_find?_eq_some hf
    have hkv : kv.1 = sec := by simpa using List.find?_some hf
    exact List.mem_map.mpr ⟨kv, hmem, hkv⟩

/-- C1: on the listing mapping 1 to Bridge 1 and 2 to Bridge 2, resolving the
name Bridge 1 returns the key 1, resolving the integer 2 returns 2, and
resolving the unknown name Invalid Bridge raises a ValueError whose message
contains both the offending input and the full listing of valid options. -/
theorem bridge_resolution_worked_example :
    get_bridge_id (PyId.s "Bridge 1") [(1, "Bridge 1"), (2, "Bridge 2")] = Except.ok 1 ∧
    get_bridge_id (PyId.i 2) [(1, "Bridge 1"), (2, "Bridge 2")] = Except.ok 2 ∧
    ∃ msg, get_bridge_id (PyId.s "Invalid Bridge") [(1, "Bridge 1"), (2, "Bridge 2")] =
        Except.error msg ∧
      ContainsStr msg "Invalid Bridge" ∧
      ContainsStr msg (reprIntStrDict [(1, "Bridge 1"), (2, "Bridge 2")]) := by
  refine ⟨by rfl, by rfl, ?_⟩
  refine ⟨"Invalid bridge: Invalid Bridge. Available bridges: " ++
    reprIntStrDict [(1, "Bridge 1"), (2, "Bridge 2")], by rfl, ?_, ?_⟩
  · exact ⟨"Invalid bridge: ",
      ". Available bridges: " ++ reprIntStrDict [(1, "Bridge 1"), (2, "Bridge 2")],
      by decide⟩
  · exact ⟨"Invalid bridge: Invalid Bridge. Available bridges: ", "", by decide⟩

/-- C6: listing accessors are memoized per client instance: from a fresh
cache slot, the first access runs the defining fetch exactly once, and a
second sequential access returns the stored value with no further fetch, so
two sequential calls result in exactly one fetch. -/
theorem listing_memoization_single_fetch (names : List String) :
    (cachedAccess (fun _ => chains_listing names) ⟨Option.none, 0⟩).2.fetches = 1 ∧
    (cachedAccess (fun _ => chains_listing names)
        (cachedAccess (fun _ => chains_listing names) ⟨Option.none, 0⟩).2).1 =
      (cachedAccess (fun _ => chains_listing names) ⟨Option.none, 0⟩).1 ∧
    (cachedAccess (fun _ => chains_listing names)
        (cachedAccess (fun _ => chains_listing names) ⟨Option.none, 0⟩).2).2.fetches = 1 := by
  refine ⟨rfl, rfl, rfl⟩

/-- C6 witness: the memoization theorem evaluated on a concrete chains
response of two names. -/
theorem listing_memoization_single_fetch_witness :
    (cachedAccess (fun _ => chains_listing ["Ethereum", "Arbitrum"]) ⟨Option.none, 0⟩).2.fetches = 1 := by
  exact (listing_memoization_single_fetch ["Ethereum", "Arbitrum"]).1

/-- C7: for each of the seven API sections, building a URL with no path
segments yields exactly base slash endpoint, with no trailing or double
slash; building with a section outside the enum fails with the Invalid
section ValueError. -/
theorem build_url_sections :
    (∀ endpoint : String,
      build_endpoint_url "tvl" endpoint [] =
        Except.ok ("https://api.llama.fi/" ++ endpoint) ∧
      build_endpoint_url "coins" endpoint [] =
        Except.ok ("https://coins.llama.fi/" ++ endpoint) ∧
      build_endpoint_url "stablecoins" endpoint [] =
        Except.ok ("https://stablecoins.llama.fi/" ++ endpoint) ∧
      build_endpoint_url "yields" endpoint [] =
        Except.ok ("https://yields.llama.fi/" ++ endpoint) ∧
      build_endpoint_url "bridges" endpoint [] =
        Except.ok ("https://bridges.llama.fi/" ++ endpoint) ∧
      build_endpoint_url "volumes" endpoint [] =
        Except.ok ("https://api.llama.fi/" ++ endpoint) ∧
      build_endpoint_url "fees" endpoint [] =
        Except.ok ("https://api.llama.fi/" ++ endpoint)) ∧
    (∀ sec endpoint : String, sec ∉ apiSections →
      build_endpoint_url sec endpoint [] =
        Except.error ("Invalid section: " ++ sec)) := by
  constructor
  · intro endpoint
    exact ⟨rfl, rfl, rfl, rfl, rfl, rfl, rfl⟩
  · intro sec endpoint h
    have hr := resolve_api_url_not_mem sec h
    simp [build_endpoint_url, hr]

/-- C7 witness: the section theorem evaluated at the protocols endpoint and
at the invalid section invalid-section. -/
theorem build_url_sections_witness :
    build_endpoint_url "tvl" "protocols" [] =
      Except.ok ("https://api.llama.fi/" ++ "protocols") ∧
    ("invalid-section" ∉ apiSections) ∧
    build_endpoint_url "invalid-section" "protocols" [] =
      Except.error ("Invalid section: " ++ "invalid-section") := by
  have hnot : "invalid-section" ∉ apiSections := by decide
  exact ⟨(build_url_sections.1 "protocols").1, hnot,
    build_url_sections.2 "invalid-section" "protocols" hnot⟩

/-- C8: in the assembled query string, a parameter whose value is None is
omitted entirely while False and 0 are sent as literal values: for the
params a=1, b=None, c=False the result keeps a and c and drops b. -/
theorem query_params_none_omitted :
    get_request "tvl" "endpoint" []
        [("a", PyVal.int 1), ("b", PyVal.none), ("c", PyVal.bool false)] =
      Except.ok ("https://api.llama.fi/endpoint", [("a", "1"), ("c", "False")]) ∧
    (encode_params [("a", PyVal.int 1), ("b", PyVal.none), ("c", PyVal.bool false)]).map
        Prod.fst = ["a", "c"] ∧
    encode_params [("x", PyVal.int 0), ("y", PyVal.none)] = [("x", "0")] := by
  refine ⟨by rfl, by rfl, by rfl⟩

/-- C9: coin-list normalization serializes a mixed list of chain:address
strings and structured pairs into one comma-joined string of chain:address
tokens, preserving input order and performing no de-duplication, and passes
single inputs of each shape through the same token serializer. -/
theorem coins_serialization :
    prepare_coins_for_request
        (CoinsInput.list [CoinLike.str "ethereum:0xABC", CoinLike.dict "bsc" "0xDEF"]) =
      "ethereum:0xABC,bsc:0xDEF" ∧
    prepare_coins_for_request (CoinsInput.str "ethereum:0xABC,bsc:0xDEF") =
      "ethereum:0xABC,bsc:0xDEF" ∧
    prepare_coins_for_request (CoinsInput.coin "ethereum" "0xABC") = "ethereum:0xABC" ∧
    prepare_coins_for_request (CoinsInput.dict "bsc" "0xDEF") = "bsc:0xDEF" ∧
    prepare_coins_for_request
        (CoinsInput.list [CoinLike.str "a:b", CoinLike.str "a:b"]) = "a:b,a:b" ∧
    prepare_coins_for_request
        (CoinsInput.list [CoinLike.dict "bsc" "0xDEF", CoinLike.str "ethereum:0xABC"]) =
      "bsc:0xDEF,ethereum:0xABC" := by
  refine ⟨by rfl, by rfl, by rfl, by rfl, by rfl, by rfl⟩

/-- Helper: appending the empty string is the identity. -/
theorem str_append_empty (s : String) : s ++ "" = s := by
  apply String.ext
  show s.data ++ [] = s.data
  simp

/-- C10: when the path segment tuple is nonempty but every supplied segment
is falsy, the built URL is base slash endpoint slash: the separator slash is
appended because the tuple is nonempty even though all falsy segments are
dropped from the joined path. -/
theorem all_falsy_segments_trailing_slash (sec base endpoint : String)
    (args : List PyVal) (hres : resolve_api_url sec = Except.ok base)
    (hne : args ≠ []) (hfal : ∀ a ∈ args, pyTruthy a = false) :
    build_endpoint_url sec endpoint args =
      Except.ok (base ++ "/" ++ endpoint ++ "/") := by
  have hfilter : args.filter pyTruthy = [] := by
    apply List.filter_eq_nil_iff.mpr
    intro a ha
    simp [hfal a ha]
  have hempty : args.isEmpty = false := by
    cases args with
    | nil => exact absurd rfl hne
    | cons a t => rfl
  simp [build_endpoint_url, hres, hempty, hfilter, joinWith, str_append_empty]

/-- C10 witness: the trailing-slash theorem evaluated on the segment list
0, empty string, None. -/
theorem all_falsy_segments_trailing_slash_witness :
    resolve_api_url "tvl" = Except.ok "https://api.llama.fi" ∧
    ([PyVal.int 0, PyVal.str "", PyVal.none] ≠ ([] : List PyVal)) ∧
    build_endpoint_url "tvl" "endpoint1" [PyVal.int 0, PyVal.str "", PyVal.none] =
      Except.ok ("https://api.llama.fi" ++ "/" ++ "endpoint1" ++ "/") := by
  refine ⟨rfl, by decide, ?_⟩
  exact all_falsy_segments_trailing_slash "tvl" "https://api.llama.fi" "endpoint1"
    [PyVal.int 0, PyVal.str "", PyVal.none] rfl (by decide) (by decide)

/-- Helper: the name-search over listing values only depends on the
lowercase form of the searched name. -/
theorem find_match_lower_congr {β : Type} (l : List (β × String))
    (name variant : String) (h : strLower variant = strLower name) :
    l.find? (fun kv => kv.2 == variant || strLower kv.2 == strLower variant) =
      l.find? (fun kv => kv.2 == name || strLower kv.2 == strLower name) := by
  apply find_pred_congr
  intro kv
  rw [match_pred_lower, match_pred_lower, h]

/-- Helper: an exact-case match among the listing values makes the
name-search succeed. -/
theorem find_match_exists {β : Type} (l : List (β × String)) (name : String)
    (hex : ∃ k, (k, name) ∈ l) :
    ∃ kv, l.find? (fun kv => kv.2 == name || strLower kv.2 == strLower name) =
      some kv := by
  obtain ⟨k, hk⟩ := hex
  have hsome :
      (l.find? (fun kv => kv.2 == name || strLower kv.2 == strLower name)).isSome := by
    apply List.find?_isSome.mpr
    exact ⟨(k, name), hk, by simp⟩
  exact Option.isSome_iff_exists.mp hsome

/-- C2 counterexample: in the pool category, a symbol that is itself 32
hexadecimal characters parses as a UUID, so both the exact-case name and its
lowercase variant bypass the listing search and are returned verbatim,
yielding two different canonical identifiers. -/
theorem case_insensitive_resolution_cex :
    strLower "abcdefabcdefabcdefabcdefabcdefab" =
      strLower "ABCDEFABCDEFABCDEFABCDEFABCDEFAB" ∧
    (("8997587d-a4aa-4441-95ce-4884f7f3c946", "ABCDEFABCDEFABCDEFABCDEFABCDEFAB") ∈
      [("8997587d-a4aa-4441-95ce-4884f7f3c946", "ABCDEFABCDEFABCDEFABCDEFABCDEFAB")]) ∧
    get_pool_historical_apy_and_tvl "abcdefabcdefabcdefabcdefabcdefab"
        [("8997587d-a4aa-4441-95ce-4884f7f3c946", "ABCDEFABCDEFABCDEFABCDEFABCDEFAB")] =
      Except.ok ⟨"yields", "chart",
        [PyVal.str "abcdefabcdefabcdefabcdefabcdefab"], []⟩ ∧
    get_pool_historical_apy_and_tvl "ABCDEFABCDEFABCDEFABCDEFABCDEFAB"
        [("8997587d-a4aa-4441-95ce-4884f7f3c946", "ABCDEFABCDEFABCDEFABCDEFABCDEFAB")] =
      Except.ok ⟨"yields", "chart",
        [PyVal.str "ABCDEFABCDEFABCDEFABCDEFABCDEFAB"], []⟩ ∧
    ("abcdefabcdefabcdefabcdefabcdefab" : String) ≠
      "ABCDEFABCDEFABCDEFABCDEFABCDEFAB" := by
  refine ⟨by rfl, by simp, by rfl, by rfl, by decide⟩

/-- C2 amended: for the bridge and stablecoin categories, whenever a name
has an exact-case match among the listing values, any case variant resolves
to the same result as the exact-case name; for the pool category the same
holds provided neither the name nor the variant parses as a UUID, since a
UUID-parsable input bypasses the listing and is returned verbatim. -/
theorem case_insensitive_resolution_amended :
    (∀ (bridges : List (Int × String)) (name variant : String),
      strLower variant = strLower name →
      (∃ k, (k, name) ∈ bridges) →
      get_bridge_id (PyId.s variant) bridges = get_bridge_id (PyId.s name) bridges) ∧
    (∀ (stablecoins : List (Int × String)) (name variant : String),
      strLower variant = strLower name →
      (∃ k, (k, name) ∈ stablecoins) →
      get_stablecoin_id (PyId.s variant) stablecoins =
        get_stablecoin_id (PyId.s name) stablecoins) ∧
    (∀ (pools : List (String × String)) (name variant : String),
      strLower variant = strLower name →
      (∃ k, (k, name) ∈ pools) →
      uuidParses name = false → uuidParses variant = false →
      get_pool_historical_apy_and_tvl variant pools =
        get_pool_historical_apy_and_tvl name pools) := by
  refine ⟨?_, ?_, ?_⟩
  · intro bridges name variant hlow hex
    by_cases hn : pyIsNumeric name = true
    · have hvnum : pyIsNumeric variant = true := by
        rw [pyIsNumeric_of_strLower_eq variant name hlow]; exact hn
      have hveq : variant = name := eq_of_strLower_eq_numeric variant name hlow hvnum
      rw [hveq]
    · have hnn : pyIsNumeric name = false := Bool.eq_false_iff.mpr hn
      have hvn : pyIsNumeric variant = false := by
        rw [pyIsNumeric_of_strLower_eq variant name hlow]; exact hnn
      simp only [get_bridge_id, hvn, hnn, Bool.not_false, if_true]
      rw [find_match_lower_congr bridges name variant hlow]
      obtain ⟨kv, hkv⟩ := find_match_exists bridges name hex
      rw [hkv]
  · intro stablecoins name variant hlow hex
    by_cases hn : pyIsNumeric name = true
    · have hvnum : pyIsNumeric variant = true := by
        rw [pyIsNumeric_of_strLower_eq variant name hlow]; exact hn
      have hveq : variant = name := eq_of_strLower_eq_numeric variant name hlow hvnum
      rw [hveq]
    · have hnn : pyIsNumeric name = false := Bool.eq_false_iff.mpr hn
      have hvn : pyIsNumeric variant = false := by
        rw [pyIsNumeric_of_strLower_eq variant name hlow]; exact hnn
      simp only [get_stablecoin_id, hvn, hnn, Bool.not_false, if_true]
      rw [find_match_lower_congr stablecoins name variant hlow]
      obtain ⟨kv, hkv⟩ := find_match_exists stablecoins name hex
      rw [hkv]
  · intro pools name variant hlow hex hnu hvu
    simp only [get_pool_historical_apy_and_tvl, hnu, hvu, Bool.false_eq_true, if_false]
    rw [find_match_lower_congr pools name variant hlow]
    obtain ⟨kv, hkv⟩ := find_match_exists pools name hex
    rw [hkv]

/-- C2 witness: the amended theorem evaluated for usdt versus USDT in the
bridge and stablecoin listings and matic-weth versus MATIC-WETH in the pool
listing. -/
theorem case_insensitive_resolution_amended_witness :
    get_bridge_id (PyId.s "usdt") [(1, "USDT")] =
      get_bridge_id (PyId.s "USDT") [(1, "USDT")] ∧
    get_stablecoin_id (PyId.s "usdt") [(5, "USDT")] =
      get_stablecoin_id (PyId.s "USDT") [(5, "USDT")] ∧
    get_pool_historical_apy_and_tvl "matic-weth" [("p1", "MATIC-WETH")] =
      get_pool_historical_apy_and_tvl "MATIC-WETH" [("p1", "MATIC-WETH")] := by
  refine ⟨case_insensitive_resolution_amended.1 [(1, "USDT")] "USDT" "usdt"
      (by rfl) ⟨1, by simp⟩,
    case_insensitive_resolution_amended.2.1 [(5, "USDT")] "USDT" "usdt"
      (by rfl) ⟨5, by simp⟩,
    case_insensitive_resolution_amended.2.2 [("p1", "MATIC-WETH")] "MATIC-WETH"
      "matic-weth" (by rfl) ⟨"p1", by simp⟩ (by rfl) (by rfl)⟩

/-- Helper: membership makes the string-list entity validation succeed. -/
theorem validate_searched_entity_ok (entity : String) (entities : List String)
    (etype : String) (h : entity ∈ entities) :
    validate_searched_entity entity entities etype = Except.ok () := by
  simp [validate_searched_entity, h]

/-- Helper: non-membership makes the string-list entity validation raise. -/
theorem validate_searched_entity_err (entity : String) (entities : List String)
    (etype : String) (h : entity ∉ entities) :
    validate_searched_entity entity entities etype =
      Except.error ("Invalid " ++ etype ++ ": " ++ entity ++
        ". Available: " ++ reprStrList entities) := by
  simp [validate_searched_entity, h]

/-- C3 counterexample: the dex-chain call site validates the raw identifier,
so Ethereum is rejected even though its lowercase form ethereum is in the
listing, contradicting that an identifier whose lowercase form is in the
listing is accepted regardless of supplied case. -/
theorem lowercase_membership_dex_chain_cex :
    (strLower "Ethereum" ∈ ["ethereum"]) ∧
    get_dexes_volume_overview_for_chain "Ethereum" ["ethereum"] true true
        "dailyVolume" =
      Except.error ("Invalid chain: Ethereum. Available: " ++
        reprStrList ["ethereum"]) := by
  refine ⟨by decide, by rfl⟩

/-- C3 amended: set-membership resolution is a membership check on the
identifier as the call site passes it: get_historical_tvl_for_chain
lowercases the chain first, so any case variant of a listed chain is
accepted, while get_dexes_volume_overview_for_chain passes the chain
unmodified, so it is accepted exactly when the raw identifier is a listing
member. -/
theorem lowercase_membership_amended :
    (∀ (chain : String) (chains : List String),
      strLower chain ∈ chains →
      get_historical_tvl_for_chain chain chains =
        Except.ok ⟨"tvl", "v2",
          [PyVal.str "historicalChainTvl", PyVal.str chain], []⟩) ∧
    (∀ (chain : String) (dex_chains : List String) (b1 b2 : Bool) (dt : String),
      chain ∈ dex_chains ↔
        get_dexes_volume_overview_for_chain chain dex_chains b1 b2 dt =
          Except.ok ⟨"volumes", "overview", [PyVal.str "dexs", PyVal.str chain],
            [("excludeTotalDataChart", PyVal.bool b1),
             ("excludeTotalDataChartBreakdown", PyVal.bool b2),
             ("dataType", PyVal.str dt)]⟩) := by
  constructor
  · intro chain chains h
    have hv := validate_searched_entity_ok (strLower chain) chains "chain" h
    simp [get_historical_tvl_for_chain, hv]
  · intro chain dex_chains b1 b2 dt
    constructor
    · intro hm
      have hv := validate_searched_entity_ok chain dex_chains "chain" hm
      simp [get_dexes_volume_overview_for_chain, hv]
    · intro heq
      by_contra hm
      have hv := validate_searched_entity_err chain dex_chains "chain" hm
      simp [get_dexes_volume_overview_for_chain, hv] at heq

/-- C3 witness: the amended theorem evaluated at Ethereum against the
lowercasing call site and at ethereum against the raw dex-chain call site. -/
theorem lowercase_membership_amended_witness :
    get_historical_tvl_for_chain "Ethereum" ["ethereum"] =
      Except.ok ⟨"tvl", "v2",
        [PyVal.str "historicalChainTvl", PyVal.str "Ethereum"], []⟩ ∧
    ("ethereum" ∈ ["ethereum"] ↔
      get_dexes_volume_overview_for_chain "ethereum" ["ethereum"] true true
          "dailyVolume" =
        Except.ok ⟨"volumes", "overview",
          [PyVal.str "dexs", PyVal.str "ethereum"],
          [("excludeTotalDataChart", PyVal.bool true),
           ("excludeTotalDataChartBreakdown", PyVal.bool true),
           ("dataType", PyVal.str "dailyVolume")]⟩) := by
  exact ⟨lowercase_membership_amended.1 "Ethereum" ["ethereum"] (by decide),
    lowercase_membership_amended.2 "ethereum" ["ethereum"] true true "dailyVolume"⟩

/-- C4 counterexample: an input that parses as a UUID but matches neither
the key nor the symbol of the cached pool listing is sent upstream without
any resolution error, and the same input succeeds even against the empty
listing. -/
theorem pool_validation_uuid_bypass_cex :
    ("8997587d-a4aa-4441-95ce-4884f7f3c946" : String) ≠
      "00000000-0000-0000-0000-000000000000" ∧
    strLower "MATIC-WETH" ≠ strLower "00000000-0000-0000-0000-000000000000" ∧
    get_pool_historical_apy_and_tvl "00000000-0000-0000-0000-000000000000"
        [("8997587d-a4aa-4441-95ce-4884f7f3c946", "MATIC-WETH")] =
      Except.ok ⟨"yields", "chart",
        [PyVal.str "00000000-0000-0000-0000-000000000000"], []⟩ ∧
    get_pool_historical_apy_and_tvl "00000000-0000-0000-0000-000000000000" [] =
      Except.ok ⟨"yields", "chart",
        [PyVal.str "00000000-0000-0000-0000-000000000000"], []⟩ := by
  refine ⟨by decide, by decide, by rfl, by rfl⟩

/-- C4 amended: only inputs that fail UUID parsing are validated against the
cached pool listing: such an input matching no symbol (case-insensitively)
fails with a resolution error before any request, while an input that parses
as a UUID is used as the pool id directly with no listing validation, even
against an empty listing. -/
theorem pool_validation_amended :
    (∀ (pool : String) (pools : List (String × String)),
      uuidParses pool = false →
      (∀ kv ∈ pools, kv.2 ≠ pool ∧ strLower kv.2 ≠ strLower pool) →
      get_pool_historical_apy_and_tvl pool pools =
        Except.error (pool_error_msg pool)) ∧
    (∀ (pool : String) (pools : List (String × String)),
      uuidParses pool = true →
      get_pool_historical_apy_and_tvl pool pools =
        Except.ok ⟨"yields", "chart", [PyVal.str pool], []⟩) := by
  constructor
  · intro pool pools hu hnm
    have hf : pools.find?
        (fun kv => kv.2 == pool || strLower kv.2 == strLower pool) = Option.none := by
      apply List.find?_eq_none.mpr
      intro kv hkv
      have hx := hnm kv hkv
      simp [hx.1, hx.2]
    simp [get_pool_historical_apy_and_tvl, hu, hf]
  · intro pool pools hu
    simp [get_pool_historical_apy_and_tvl, hu]

/-- C4 witness: the amended theorem evaluated at the non-UUID input Invalid
Pool against a one-entry listing and at a UUID input against the empty
listing. -/
theorem pool_validation_amended_witness :
    get_pool_historical_apy_and_tvl "Invalid Pool"
        [("8997587d-a4aa-4441-95ce-4884f7f3c946", "MATIC-WETH")] =
      Except.error (pool_error_msg "Invalid Pool") ∧
    get_pool_historical_apy_and_tvl "8997587d-a4aa-4441-95ce-4884f7f3c946" [] =
      Except.ok ⟨"yields", "chart",
        [PyVal.str "8997587d-a4aa-4441-95ce-4884f7f3c946"], []⟩ := by
  refine ⟨?_, ?_⟩
  · exact pool_validation_amended.1 "Invalid Pool"
      [("8997587d-a4aa-4441-95ce-4884f7f3c946", "MATIC-WETH")] (by rfl) (by decide)
  · exact pool_validation_amended.2 "8997587d-a4aa-4441-95ce-4884f7f3c946" [] (by rfl)

/-- C5 counterexample: a supplied optional bridge that fails resolution
makes get_bridge_volume raise the resolution error instead of logging a
warning and issuing the primary request with the bridge treated as absent,
which is what the same call with no bridge does. -/
theorem optional_bridge_downgrade_cex :
    get_bridge_volume "chain1" (some (PyId.s "bridge3")) ["chain1"]
        [(1, "bridge1")] =
      Except.error ("Invalid bridge: bridge3. Available bridges: " ++
        reprIntStrDict [(1, "bridge1")]) ∧
    get_bridge_volume "chain1" Option.none ["chain1"] [(1, "bridge1")] =
      Except.ok ⟨"bridges", "bridgevolume", [PyVal.str "chain1"],
        [("id", PyVal.none)]⟩ := by
  refine ⟨by rfl, by rfl⟩

/-- C5 amended: the optional bridge of get_bridge_volume is treated as
absent only when it is falsy (omitted, empty string, or zero); a truthy
bridge that fails resolution propagates the resolution error unchanged and
the primary request is not issued — there is no warn-and-omit downgrade. -/
theorem optional_bridge_amended :
    (∀ (chain : String) (dex_chains : List String) (bridges : List (Int × String)),
      chain ∈ dex_chains →
      get_bridge_volume chain Option.none dex_chains bridges =
        Except.ok ⟨"bridges", "bridgevolume", [PyVal.str chain],
          [("id", PyVal.none)]⟩) ∧
    (∀ (chain : String) (dex_chains : List String) (bridges : List (Int × String))
        (b : PyId),
      chain ∈ dex_chains → pyTruthyId b = false →
      get_bridge_volume chain (some b) dex_chains bridges =
        Except.ok ⟨"bridges", "bridgevolume", [PyVal.str chain],
          [("id", PyVal.none)]⟩) ∧
    (∀ (chain : String) (dex_chains : List String) (bridges : List (Int × String))
        (b : PyId) (msg : String),
      chain ∈ dex_chains → pyTruthyId b = true →
      get_bridge_id b bridges = Except.error msg →
      get_bridge_volume chain (some b) dex_chains bridges = Except.error msg) := by
  refine ⟨?_, ?_, ?_⟩
  · intro chain dex_chains bridges hm
    have hv := validate_searched_entity_ok chain dex_chains "chain" hm
    simp [get_bridge_volume, hv, optIntVal]
  · intro chain dex_chains bridges b hm htr
    have hv := validate_searched_entity_ok chain dex_chains "chain" hm
    simp [get_bridge_volume, hv, htr, optIntVal]
  · intro chain dex_chains bridges b msg hm htr herr
    have hv := validate_searched_entity_ok chain dex_chains "chain" hm
    simp [get_bridge_volume, hv, htr, herr]
    rfl

/-- C5 witness: the amended theorem evaluated with no bridge, with the falsy
bridge empty string, and with the unresolvable bridge bridge3. -/
theorem optional_bridge_amended_witness :
    get_bridge_volume "chain1" Option.none ["chain1"] [(1, "bridge1")] =
      Except.ok ⟨"bridges", "bridgevolume", [PyVal.str "chain1"],
        [("id", PyVal.none)]⟩ ∧
    get_bridge_volume "chain1" (some (PyId.s "")) ["chain1"] [(1, "bridge1")] =
      Except.ok ⟨"bridges", "bridgevolume", [PyVal.str "chain1"],
        [("id", PyVal.none)]⟩ ∧
    get_bridge_volume "chain1" (some (PyId.s "bridge3")) ["chain1"]
        [(1, "bridge1")] =
      Except.error ("Invalid bridge: bridge3. Available bridges: " ++
        reprIntStrDict [(1, "bridge1")]) := by
  refine ⟨optional_bridge_amended.1 "chain1" ["chain1"] [(1, "bridge1")] (by decide),
    optional_bridge_amended.2.1 "chain1" ["chain1"] [(1, "bridge1")] (PyId.s "")
      (by decide) (by rfl),
    optional_bridge_amended.2.2 "chain1" ["chain1"] [(1, "bridge1")]
      (PyId.s "bridge3")
      ("Invalid bridge: bridge3. Available bridges: " ++ reprIntStrDict [(1, "bridge1")])
      (by decide) (by rfl) (by rfl)⟩
